import Mathlib

/-!
Shallow embedding of the modem refclock driver (ntpd/refclock_modem.c):
the line framer (modem_receive), the length-dispatched timecode parser
(modem_timecode), and the call session automaton (modem_message,
modem_timeout, modem_timer, modem_poll, modem_close).  External
collaborators (device writes, the advisory lock file, the downstream
clock filter, event reporting) are represented by oracle parameters in
an environment record and by an effect trace returned alongside the
updated session state.
-/

/-- C isspace in the C locale (ASCII). -/
def isspaceB (c : Char) : Bool :=
  c == ' ' || c == '\t' || c == '\n' || c == '\x0b' || c == '\x0c' || c == '\r'

/-- C iscntrl in the C locale (ASCII). -/
def iscntrlB (c : Char) : Bool :=
  c.toNat < 32 || c.toNat == 127

/-- Leading-whitespace skip performed by the sscanf conversions and by
literal whitespace in a scanf format. -/
def skipSpace (s : List Char) : List Char := s.dropWhile isspaceB

/-- Take at most w leading decimal digits, returning them and the rest. -/
def takeDigits : Nat → List Char → List Char × List Char
  | 0, s => ([], s)
  | _ + 1, [] => ([], [])
  | w + 1, c :: s =>
    if c.isDigit then
      let r := takeDigits w s
      (c :: r.1, r.2)
    else ([], c :: s)

/-- Decimal value of a digit list. -/
def digitsVal (ds : List Char) : Nat :=
  ds.foldl (fun a c => 10 * a + (c.toNat - 48)) 0

/-- Digit run of width at most w; sscanf requires at least one digit. -/
def scanDigitsV (w : Nat) (s : List Char) : Option (Nat × List Char) :=
  let r := takeDigits w s
  if r.1 = [] then none else some (digitsVal r.1, r.2)

/-- sscanf %Nu and %Nlu: skip whitespace, optional sign, then digits, the
sign counting against the field width.  C wraps the stored value for a
negative input; every %u field of this driver (mjd, dst) is unused, so
the plain digit value is returned. -/
def scanNat (w : Nat) (s : List Char) : Option (Nat × List Char) :=
  match skipSpace s with
  | '+' :: r => scanDigitsV (w - 1) r
  | '-' :: r => scanDigitsV (w - 1) r
  | r => scanDigitsV w r

/-- sscanf %Nd: skip whitespace, optional sign, then digits, the sign
counting against the field width. -/
def scanInt (w : Nat) (s : List Char) : Option (Int × List Char) :=
  match skipSpace s with
  | '+' :: r =>
    match scanDigitsV (w - 1) r with
    | none => none
    | some (v, r2) => some ((v : Int), r2)
  | '-' :: r =>
    match scanDigitsV (w - 1) r with
    | none => none
    | some (v, r2) => some (-(v : Int), r2)
  | r =>
    match scanDigitsV w r with
    | none => none
    | some (v, r2) => some ((v : Int), r2)

/-- sscanf %Ns: skip whitespace, then up to w non-whitespace characters,
at least one. -/
def scanStr (w : Nat) (s : List Char) : Option (List Char × List Char) :=
  let r := skipSpace s
  let t := (r.takeWhile (fun c => ! isspaceB c)).take w
  if t = [] then none else some (t, r.drop t.length)

/-- sscanf %c: exactly one character, no whitespace skip. -/
def scanChar : List Char → Option (Char × List Char)
  | [] => none
  | c :: s => some (c, s)

/-- sscanf suppressed %*Nc: exactly n characters, no whitespace skip. -/
def scanCharsN (n : Nat) (s : List Char) : Option (List Char) :=
  if n ≤ s.length then some (s.drop n) else none

/-- A literal non-whitespace character in a scanf format. -/
def matchChar (c : Char) : List Char → Option (List Char)
  | [] => none
  | x :: s => if x = c then some s else none

/-- Mantissa of a sscanf %Nlf field after the optional sign: digits,
optionally a decimal point and more digits, at least one digit in all,
within the remaining width.  The two %lf fields of this driver (dut1,
msADV) are unused, so only the consumed input matters; exponent and
hexadecimal forms, absent from the wire formats, are not modelled. -/
def scanFloatBody (w : Nat) (s : List Char) : Option (List Char) :=
  let r1 := takeDigits w s
  match w - r1.1.length, r1.2 with
  | 0, rest => if r1.1 = [] then none else some rest
  | k + 1, '.' :: r2 =>
    let r3 := takeDigits k r2
    if r1.1 = [] ∧ r3.1 = [] then none else some r3.2
  | _ + 1, rest => if r1.1 = [] then none else some rest

/-- sscanf %Nlf: skip whitespace, optional sign, then a float mantissa,
the sign counting against the field width. -/
def scanFloat (w : Nat) (s : List Char) : Option (List Char) :=
  match skipSpace s with
  | '+' :: r => scanFloatBody (w - 1) r
  | '-' :: r => scanFloatBody (w - 1) r
  | r => scanFloatBody w r

/-- Fields of the NIST format A sscanf
(percent conversions 5lu 2d-2d-2d 2d:2d:2d 2u 1u 3lf 5lf 9s c). -/
structure ActsFields where
  mjd : Nat
  year : Int
  month : Int
  day : Int
  hour : Int
  minute : Int
  second : Int
  dst : Nat
  leap : Nat
  utc : List Char
  flag : Char
deriving DecidableEq

/-- Fields of the USNO sscanf (percent conversions 5lu 3d 2d2d2d 3s). -/
structure UsnoFields where
  mjd : Nat
  day : Int
  hour : Int
  minute : Int
  second : Int
  utc : List Char
deriving DecidableEq

/-- Fields of the PTB/NPL sscanf. -/
structure PtbFields where
  second : Int
  year : Int
  month : Int
  day : Int
  hour : Int
  minute : Int
  mjd : Nat
  leapdir : Char
  leapmonth : Int
  flag : Char
deriving DecidableEq

/-- Fields of the Spectracom format 0 sscanf. -/
structure Spec0Fields where
  synchar : Char
  day : Int
  hour : Int
  minute : Int
  second : Int
  dstchar : Char
  tz : Int
deriving DecidableEq

/-- Fields of the Spectracom format 2 sscanf. -/
structure Spec2Fields where
  synchar : Char
  qualchar : Char
  year : Int
  day : Int
  hour : Int
  minute : Int
  second : Int
  nsec : Int
  dstchar : Char
  leapchar : Char
deriving DecidableEq

/-- NTP leap indicator values used by the driver. -/
inductive Leap
  | nowarning
  | addsecond
  | delsecond
  | notinsync
deriving DecidableEq

/-- The fields of struct refclockproc and of the owning peer that the
driver reads or writes.  io_fd_open models pp.io.fd being different from
the -1 closed sentinel; flag1 and flag2 are the CLK_FLAG1 and CLK_FLAG2
bits of sloppyclockflag; peer_refid models the peer refid assignment;
timestamps (l_fp) are abstracted as naturals. -/
structure Refclockproc where
  year : Int := 0
  day : Int := 0
  hour : Int := 0
  minute : Int := 0
  second : Int := 0
  nsec : Int := 0
  leap : Leap := .nowarning
  refid : String := "NONE"
  peer_refid : String := "NONE"
  lastrec : Nat := 0
  lastref : Nat := 0
  a_lastcode : String := ""
  lencode : Nat := 0
  io_fd_open : Bool := false
  flag1 : Bool := false
  flag2 : Bool := false
  polls : Nat := 0
deriving DecidableEq

/-!
Each sscanf call of modem_timecode is modelled by a scan function that
returns the fully extracted fields when every conversion succeeds, paired
with the store function that records which pp-destined conversions had
already succeeded when a later conversion failed: C sscanf stores each
conversion through its pointer as it happens, so a failing call leaves
the prefix stored.  Conversions whose destinations are locals of
modem_timecode (mjd, month and day of format A, dst, the float fields,
the character fields) are observable only through the extracted fields.
-/

/-- Format A scan, first fragment (percent conversions 5lu 2d-2d-2d):
mjd (local), then pp year, then month and day (locals). -/
def actsScan1 (s : List Char) :
    Option (Nat × Int × Int × Int × List Char) × (Refclockproc → Refclockproc) :=
  match scanNat 5 s with
  | none => (none, id)
  | some (mjd, s) =>
    match scanInt 2 s with
    | none => (none, id)
    | some (year, s) =>
      let g1 : Refclockproc → Refclockproc := fun pp => { pp with year := year }
      match matchChar '-' s with
      | none => (none, g1)
      | some s =>
        match scanInt 2 s with
        | none => (none, g1)
        | some (month, s) =>
          match matchChar '-' s with
          | none => (none, g1)
          | some s =>
            match scanInt 2 s with
            | none => (none, g1)
            | some (day, s) => (some (mjd, year, month, day, s), g1)

/-- Format A scan, second fragment (percent conversions 2d:2d:2d): the
pp hour, minute and second fields. -/
def actsScan2 (s : List Char) :
    Option (Int × Int × Int × List Char) × (Refclockproc → Refclockproc) :=
  match scanInt 2 s with
  | none => (none, id)
  | some (hour, s) =>
    let g1 : Refclockproc → Refclockproc := fun pp => { pp with hour := hour }
    match matchChar ':' s with
    | none => (none, g1)
    | some s =>
      match scanInt 2 s with
      | none => (none, g1)
      | some (minute, s) =>
        let g2 : Refclockproc → Refclockproc := fun pp => { g1 pp with minute := minute }
        match matchChar ':' s with
        | none => (none, g2)
        | some s =>
          match scanInt 2 s with
          | none => (none, g2)
          | some (second, s) =>
            (some (hour, minute, second, s),
             fun pp => { g2 pp with second := second })

/-- Format A scan, third fragment (percent conversions 2u 1u 3lf 5lf 9s
and a literal blank before the final c): dst, leap, the unused float
fields, the timescale label and the on-time flag, all locals. -/
def actsScan3 (s : List Char) : Option (Nat × Nat × List Char × Char) := do
  let (dst, s) ← scanNat 2 s
  let (leap, s) ← scanNat 1 s
  let s ← scanFloat 3 s
  let s ← scanFloat 5 s
  let (utc, s) ← scanStr 9 s
  let (flag, _) ← scanChar (skipSpace s)
  pure (dst, leap, utc, flag)

/-- The LENACTS sscanf of modem_timecode, staged over the three
fragments above: extracted fields on full success, and in either
component the pp stores already performed. -/
def actsScan (s : List Char) :
    Option ActsFields × (Refclockproc → Refclockproc) :=
  match actsScan1 s with
  | (none, g1) => (none, g1)
  | (some (mjd, year, month, day, s), g1) =>
    match actsScan2 s with
    | (none, g2) => (none, fun pp => g2 (g1 pp))
    | (some (hour, minute, second, s), g2) =>
      match actsScan3 s with
      | none => (none, fun pp => g2 (g1 pp))
      | some (dst, leap, utc, flag) =>
        (some { mjd := mjd, year := year, month := month, day := day,
                hour := hour, minute := minute, second := second, dst := dst,
                leap := leap, utc := utc, flag := flag },
         fun pp => g2 (g1 pp))

/-- Successful-parse view of the LENACTS sscanf. -/
def parseActs (s : List Char) : Option ActsFields := (actsScan s).1

/-- Partial stores of the LENACTS sscanf, applied on the BadReply path. -/
def actsStore (s : List Char) : Refclockproc → Refclockproc := (actsScan s).2

/-- The LENUSNO sscanf of modem_timecode (percent conversions 5lu 3d
2d2d2d 3s): mjd (local), then the pp day, hour, minute and second
fields, then the timescale label (local). -/
def usnoScan (s : List Char) :
    Option UsnoFields × (Refclockproc → Refclockproc) :=
  match scanNat 5 s with
  | none => (none, id)
  | some (mjd, s) =>
    match scanInt 3 s with
    | none => (none, id)
    | some (day, s) =>
      let g1 : Refclockproc → Refclockproc := fun pp => { pp with day := day }
      match scanInt 2 s with
      | none => (none, g1)
      | some (hour, s) =>
        let g2 : Refclockproc → Refclockproc := fun pp => { g1 pp with hour := hour }
        match scanInt 2 s with
        | none => (none, g2)
        | some (minute, s) =>
          let g3 : Refclockproc → Refclockproc :=
            fun pp => { g2 pp with minute := minute }
          match scanInt 2 s with
          | none => (none, g3)
          | some (second, s) =>
            let g4 : Refclockproc → Refclockproc :=
              fun pp => { g3 pp with second := second }
            match scanStr 3 s with
            | none => (none, g4)
            | some (utc, _) =>
              (some { mjd := mjd, day := day, hour := hour, minute := minute,
                      second := second, utc := utc }, g4)

/-- Successful-parse view of the LENUSNO sscanf. -/
def parseUsno (s : List Char) : Option UsnoFields := (usnoScan s).1

/-- Partial stores of the LENUSNO sscanf, applied on the BadReply path. -/
def usnoStore (s : List Char) : Refclockproc → Refclockproc := (usnoScan s).2

/-- PTB/NPL scan, first fragment (suppressed conversions star-4d dash
star-2d dash star-2d): the textual date, values discarded. -/
def ptbScan1 (s : List Char) : Option (List Char) := do
  let (_, s) ← scanInt 4 s
  let s ← matchChar '-' s
  let (_, s) ← scanInt 2 s
  let s ← matchChar '-' s
  let (_, s) ← scanInt 2 s
  pure s

/-- PTB/NPL scan, second fragment (star-2d colon star-2d colon 2d, a
literal blank, then the suppressed 5- and 12-character runs): only the
pp second field is stored. -/
def ptbScan2 (s : List Char) :
    Option (Int × List Char) × (Refclockproc → Refclockproc) :=
  match scanInt 2 s with
  | none => (none, id)
  | some (_, s) =>
    match matchChar ':' s with
    | none => (none, id)
    | some s =>
      match scanInt 2 s with
      | none => (none, id)
      | some (_, s) =>
        match matchChar ':' s with
        | none => (none, id)
        | some s =>
          match scanInt 2 s with
          | none => (none, id)
          | some (second, s) =>
            let g1 : Refclockproc → Refclockproc :=
              fun pp => { pp with second := second }
            match scanCharsN 5 (skipSpace s) with
            | none => (none, g1)
            | some s =>
              match scanCharsN 12 s with
              | none => (none, g1)
              | some s => (some (second, s), g1)

/-- PTB/NPL scan, third fragment (percent conversions 4d 2d 2d 2d 2d):
pp year, month and day (locals), pp hour and pp minute. -/
def ptbScan3 (s : List Char) :
    Option (Int × Int × Int × Int × Int × List Char) × (Refclockproc → Refclockproc) :=
  match scanInt 4 s with
  | none => (none, id)
  | some (year, s) =>
    let g1 : Refclockproc → Refclockproc := fun pp => { pp with year := year }
    match scanInt 2 s with
    | none => (none, g1)
    | some (month, s) =>
      match scanInt 2 s with
      | none => (none, g1)
      | some (day, s) =>
        match scanInt 2 s with
        | none => (none, g1)
        | some (hour, s) =>
          let g2 : Refclockproc → Refclockproc := fun pp => { g1 pp with hour := hour }
          match scanInt 2 s with
          | none => (none, g2)
          | some (minute, s) =>
            (some (year, month, day, hour, minute, s),
             fun pp => { g2 pp with minute := minute })

/-- PTB/NPL scan, fourth fragment (percent conversions 5lu 2lf c 2d 3lf,
the suppressed 15-character run, and the final c): mjd, the unused
floats, the leap direction and month, and the trailing flag, all
locals. -/
def ptbScan4 (s : List Char) : Option (Nat × Char × Int × Char) := do
  let (mjd, s) ← scanNat 5 s
  let s ← scanFloat 2 s
  let (leapdir, s) ← scanChar s
  let (leapmonth, s) ← scanInt 2 s
  let s ← scanFloat 3 s
  let s ← scanCharsN 15 s
  let (flag, _) ← scanChar s
  pure (mjd, leapdir, leapmonth, flag)

/-- The LENPTB sscanf of modem_timecode, staged over the four fragments
above. -/
def ptbScan (s : List Char) :
    Option PtbFields × (Refclockproc → Refclockproc) :=
  match ptbScan1 s with
  | none => (none, id)
  | some s =>
    match ptbScan2 s with
    | (none, g2) => (none, g2)
    | (some (second, s), g2) =>
      match ptbScan3 s with
      | (none, g3) => (none, fun pp => g3 (g2 pp))
      | (some (year, month, day, hour, minute, s), g3) =>
        match ptbScan4 s with
        | none => (none, fun pp => g3 (g2 pp))
        | some (mjd, leapdir, leapmonth, flag) =>
          (some { second := second, year := year, month := month, day := day,
                  hour := hour, minute := minute, mjd := mjd,
                  leapdir := leapdir, leapmonth := leapmonth, flag := flag },
           fun pp => g3 (g2 pp))

/-- Successful-parse view of the LENPTB sscanf. -/
def parsePtb (s : List Char) : Option PtbFields := (ptbScan s).1

/-- Partial stores of the LENPTB sscanf, applied on the BadReply path. -/
def ptbStore (s : List Char) : Refclockproc → Refclockproc := (ptbScan s).2

/-- Spectracom format 0 scan, first fragment (c, blank, 3d, blank,
2d:2d:2d): the sync character (local), then the pp day, hour, minute and
second fields. -/
def spec0Scan1 (s : List Char) :
    Option (Char × Int × Int × Int × Int × List Char) × (Refclockproc → Refclockproc) :=
  match scanChar s with
  | none => (none, id)
  | some (synchar, s) =>
    match scanInt 3 s with
    | none => (none, id)
    | some (day, s) =>
      let g1 : Refclockproc → Refclockproc := fun pp => { pp with day := day }
      match scanInt 2 s with
      | none => (none, g1)
      | some (hour, s) =>
        let g2 : Refclockproc → Refclockproc := fun pp => { g1 pp with hour := hour }
        match matchChar ':' s with
        | none => (none, g2)
        | some s =>
          match scanInt 2 s with
          | none => (none, g2)
          | some (minute, s) =>
            let g3 : Refclockproc → Refclockproc :=
              fun pp => { g2 pp with minute := minute }
            match matchChar ':' s with
            | none => (none, g3)
            | some s =>
              match scanInt 2 s with
              | none => (none, g3)
              | some (second, s) =>
                (some (synchar, day, hour, minute, second, s),
                 fun pp => { g3 pp with second := second })

/-- Spectracom format 0 scan, second fragment (a literal blank, then
cTZ=2d): the daylight character and the timezone offset, both locals. -/
def spec0Scan2 (s : List Char) : Option (Char × Int) := do
  let (dstchar, s) ← scanChar (skipSpace s)
  let s ← matchChar 'T' s
  let s ← matchChar 'Z' s
  let s ← matchChar '=' s
  let (tz, _) ← scanInt 2 s
  pure (dstchar, tz)

/-- The LENTYPE0 sscanf of modem_timecode, staged over the two fragments
above. -/
def spec0Scan (s : List Char) :
    Option Spec0Fields × (Refclockproc → Refclockproc) :=
  match spec0Scan1 s with
  | (none, g1) => (none, g1)
  | (some (synchar, day, hour, minute, second, s), g1) =>
    match spec0Scan2 s with
    | none => (none, g1)
    | some (dstchar, tz) =>
      (some { synchar := synchar, day := day, hour := hour, minute := minute,
              second := second, dstchar := dstchar, tz := tz }, g1)

/-- Successful-parse view of the LENTYPE0 sscanf. -/
def parseSpec0 (s : List Char) : Option Spec0Fields := (spec0Scan s).1

/-- Partial stores of the LENTYPE0 sscanf, applied on the BadReply
path. -/
def spec0Store (s : List Char) : Refclockproc → Refclockproc := (spec0Scan s).2

/-- Spectracom format 2 scan, first fragment (c c 2d, blank, 3d): the
sync and quality characters (locals), then the pp year and day
fields. -/
def spec2Scan1 (s : List Char) :
    Option (Char × Char × Int × Int × List Char) × (Refclockproc → Refclockproc) :=
  match scanChar s with
  | none => (none, id)
  | some (synchar, s) =>
    match scanChar s with
    | none => (none, id)
    | some (qualchar, s) =>
      match scanInt 2 s with
      | none => (none, id)
      | some (year, s) =>
        let g1 : Refclockproc → Refclockproc := fun pp => { pp with year := year }
        match scanInt 3 s with
        | none => (none, g1)
        | some (day, s) =>
          (some (synchar, qualchar, year, day, s),
           fun pp => { g1 pp with day := day })

/-- Spectracom format 2 scan, second fragment (2d:2d:2d.3ld): the pp
hour, minute, second and nsec fields; nsec holds the raw millisecond
count here, the scaling to nanoseconds happening in the case body after
the conversion-count check, as in the C code. -/
def spec2Scan2 (s : List Char) :
    Option (Int × Int × Int × Int × List Char) × (Refclockproc → Refclockproc) :=
  match scanInt 2 s with
  | none => (none, id)
  | some (hour, s) =>
    let g1 : Refclockproc → Refclockproc := fun pp => { pp with hour := hour }
    match matchChar ':' s with
    | none => (none, g1)
    | some s =>
      match scanInt 2 s with
      | none => (none, g1)
      | some (minute, s) =>
        let g2 : Refclockproc → Refclockproc := fun pp => { g1 pp with minute := minute }
        match matchChar ':' s with
        | none => (none, g2)
        | some s =>
          match scanInt 2 s with
          | none => (none, g2)
          | some (second, s) =>
            let g3 : Refclockproc → Refclockproc :=
              fun pp => { g2 pp with second := second }
            match matchChar '.' s with
            | none => (none, g3)
            | some s =>
              match scanInt 3 s with
              | none => (none, g3)
              | some (nsec, s) =>
                (some (hour, minute, second, nsec, s),
                 fun pp => { g3 pp with nsec := nsec })

/-- Spectracom format 2 scan, third fragment (c c c): the daylight, leap
and trailing characters; the C call stores the first and third into the
same local dstchar variable, so only the parse success of the third
matters. -/
def spec2Scan3 (s : List Char) : Option (Char × Char) := do
  let (dstchar, s) ← scanChar s
  let (leapchar, s) ← scanChar s
  let (_, _) ← scanChar s
  pure (dstchar, leapchar)

/-- The LENTYPE2 sscanf of modem_timecode, staged over the three
fragments above. -/
def spec2Scan (s : List Char) :
    Option Spec2Fields × (Refclockproc → Refclockproc) :=
  match spec2Scan1 s with
  | (none, g1) => (none, g1)
  | (some (synchar, qualchar, year, day, s), g1) =>
    match spec2Scan2 s with
    | (none, g2) => (none, fun pp => g2 (g1 pp))
    | (some (hour, minute, second, nsec, s), g2) =>
      match spec2Scan3 s with
      | none => (none, fun pp => g2 (g1 pp))
      | some (dstchar, leapchar) =>
        (some { synchar := synchar, qualchar := qualchar, year := year,
                day := day, hour := hour, minute := minute, second := second,
                nsec := nsec, dstchar := dstchar, leapchar := leapchar },
         fun pp => g2 (g1 pp))

/-- Successful-parse view of the LENTYPE2 sscanf. -/
def parseSpec2 (s : List Char) : Option Spec2Fields := (spec2Scan s).1

/-- Partial stores of the LENTYPE2 sscanf, applied on the BadReply
path. -/
def spec2Store (s : List Char) : Refclockproc → Refclockproc := (spec2Scan s).2

/-- State machine codes (teModemState). -/
inductive teModemState
  | S_IDLE
  | S_SETUP
  | S_CONNECT
  | S_MSG
deriving DecidableEq

/-- struct modemunit: the per-unit session state.  buf holds the line
bytes accumulated so far; resetting the cursor (bufptr = buf) is
modelled by emptying it. -/
structure Modemunit where
  state : teModemState := .S_IDLE
  timer : Nat := 0
  retry : Nat := 0
  msgcnt : Nat := 0
  tstamp : Nat := 0
  buf : List Char := []
deriving DecidableEq

/-- Externally visible actions of the driver: device writes, control
line toggles, lock file operations, event reports and samples handed to
the downstream clock filter (refclock_process calls, which carry a
snapshot of the refclockproc fields at the call). -/
inductive Effect
  | badReply
  | badTime
  | forward (sample : Refclockproc)
  | clockEvent (msg : String)
  | dialEvent (n : Nat) (phone : String)
  | setupEvent (s : String)
  | syslogErr (msg : String)
  | writeDev (s : String)
  | dtr (raise : Bool)
  | lockCreate
  | lockUnlink
  | ioClose
  | recordStats (code : String)
  | receiveSample
deriving DecidableEq

/-- True for a refclock_process call, i.e. a sample handed to the
downstream clock filter. -/
def Effect.isFwd : Effect → Bool
  | .forward _ => true
  | _ => false

/-- Number of samples handed to the clock filter in an effect trace. -/
def countForward (es : List Effect) : Nat := es.countP Effect.isFwd

/-- Timeouts and limits (seconds and counts) from the driver header. -/
def SETUP : Nat := 3

/-- Redial timeout in seconds. -/
def REDIAL : Nat := 30

/-- Answer timeout in seconds. -/
def ANSWER : Nat := 60

/-- Message timeout in seconds. -/
def TIMECODE : Nat := 60

/-- Maximum number of timecodes per call. -/
def MAXCODE : Nat := 20

/-- Calling program mode: backup. -/
def MODE_BACKUP : Nat := 0

/-- Calling program mode: automatic. -/
def MODE_AUTO : Nat := 1

/-- Calling program mode: manual. -/
def MODE_MANUAL : Nat := 2

/-- External collaborators: the phone list (sys_phone, a NULL-terminated
array modelled as a list, an out-of-range index being the sentinel), the
process-wide modem setup string, the outcomes of lock file creation,
device open and multiplexer registration, and the accept verdict of the
downstream clock filter (refclock_process). -/
structure Env where
  phones : List String := []
  modemSetup : String := "ATB1&C0&D2E0L1M1Q0V1Y1"
  lockBusy : Bool := false
  openOk : Bool := true
  addclockOk : Bool := true
  accept : Refclockproc → Bool := fun _ => true

/-- Modelled from the spec: ymd2yd lives in libntp, outside these source
files.  The spec states that day-of-year is derived from (year, month,
day) by a calendar conversion; no property below depends on its values. -/
def ymd2yd (y m d : Int) : Int :=
  let leapq : Int := if (y % 4 = 0 ∧ y % 100 ≠ 0) ∨ y % 400 = 0 then 1 else 0
  let cum : Int :=
    if m ≤ 1 then 0
    else if m = 2 then 31
    else (if m = 3 then 59 else if m = 4 then 90 else if m = 5 then 120
          else if m = 6 then 151 else if m = 7 then 181 else if m = 8 then 212
          else if m = 9 then 243 else if m = 10 then 273 else if m = 11 then 304
          else 334) + leapq
  cum + d

/-- Common tail of modem_timecode after a switch case ends in break: set
the peer refid from pp, set lastrec from the on-time timestamp, and if a
message has been counted this cycle, store the last code and hand the
sample to refclock_process; a rejection is reported as bad time. -/
def modem_finalize (accept : Refclockproc → Bool) (up : Modemunit)
    (pp : Refclockproc) (str : String) : Modemunit × Refclockproc × List Effect :=
  let pp := { pp with peer_refid := pp.refid, lastrec := up.tstamp }
  if up.msgcnt = 0 then (up, pp, [])
  else
    let pp := { pp with a_lastcode := str, lencode := str.length }
    if accept pp then
      (up, { pp with lastref := pp.lastrec }, [Effect.forward pp])
    else
      (up, pp, [Effect.forward pp, Effect.badTime])

/-- Body of the LENACTS (length 50, NIST format A) case of
modem_timecode after a successful sscanf: store the fields, derive the
day of year, decode the leap flag, set the reference id, count the
message, and finalize only when the terminal flag is present or at least
10 messages have been counted this cycle. -/
def actsCase (accept : Refclockproc → Bool) (up : Modemunit)
    (pp : Refclockproc) (str : String) (f : ActsFields) :
    Modemunit × Refclockproc × List Effect :=
  let pp := { pp with year := f.year, hour := f.hour, minute := f.minute,
                      second := f.second }
  let pp := { pp with day := ymd2yd f.year f.month f.day }
  let pp := { pp with leap := if f.leap = 1 then Leap.addsecond
                              else if f.leap = 2 then Leap.delsecond
                              else Leap.nowarning }
  let pp := { pp with refid := "NIST" }
  let up := { up with msgcnt := up.msgcnt + 1 }
  if f.flag ≠ '#' ∧ up.msgcnt < 10 then (up, pp, [])
  else modem_finalize accept up pp str

/-- Body of the LENUSNO (length 20) case of modem_timecode after a
successful sscanf: store the fields, clear the leap indicator, set the
reference id, count the message, and fall through to the finalize tail. -/
def usnoCase (accept : Refclockproc → Bool) (up : Modemunit)
    (pp : Refclockproc) (str : String) (f : UsnoFields) :
    Modemunit × Refclockproc × List Effect :=
  let pp := { pp with day := f.day, hour := f.hour, minute := f.minute,
                      second := f.second }
  let pp := { pp with leap := Leap.nowarning, refid := "USNO" }
  let up := { up with msgcnt := up.msgcnt + 1 }
  modem_finalize accept up pp str

/-- Body of the LENPTB (length 78) case of modem_timecode after a
successful sscanf. -/
def ptbCase (accept : Refclockproc → Bool) (up : Modemunit)
    (pp : Refclockproc) (str : String) (f : PtbFields) :
    Modemunit × Refclockproc × List Effect :=
  let pp := { pp with second := f.second, year := f.year, hour := f.hour,
                      minute := f.minute }
  let pp := { pp with leap := if f.leapmonth = f.month then
                                (if f.leapdir = '+' then Leap.addsecond
                                 else if f.leapdir = '-' then Leap.delsecond
                                 else Leap.nowarning)
                              else Leap.nowarning }
  let pp := { pp with day := ymd2yd f.year f.month f.day,
                      refid := "PTB\x00" }
  let up := { up with msgcnt := up.msgcnt + 1 }
  modem_finalize accept up pp str

/-- Body of the LENTYPE0 (length 22) case of modem_timecode after a
successful sscanf. -/
def spec0Case (accept : Refclockproc → Bool) (up : Modemunit)
    (pp : Refclockproc) (str : String) (f : Spec0Fields) :
    Modemunit × Refclockproc × List Effect :=
  let pp := { pp with day := f.day, hour := f.hour, minute := f.minute,
                      second := f.second }
  let pp := { pp with leap := if f.synchar ≠ ' ' then Leap.notinsync
                              else Leap.nowarning,
                      refid := "GPS\x00" }
  let up := { up with msgcnt := up.msgcnt + 1 }
  modem_finalize accept up pp str

/-- Body of the LENTYPE2 (length 24) case of modem_timecode after a
successful sscanf; the millisecond field is scaled to nanoseconds. -/
def spec2Case (accept : Refclockproc → Bool) (up : Modemunit)
    (pp : Refclockproc) (str : String) (f : Spec2Fields) :
    Modemunit × Refclockproc × List Effect :=
  let pp := { pp with year := f.year, day := f.day, hour := f.hour,
                      minute := f.minute, second := f.second,
                      nsec := f.nsec * 1000000 }
  let pp := { pp with leap := if f.synchar ≠ ' ' then Leap.notinsync
                              else if f.leapchar = 'L' then Leap.addsecond
                              else Leap.nowarning,
                      refid := "GPS\x00" }
  let up := { up with msgcnt := up.msgcnt + 1 }
  modem_finalize accept up pp str

/-- modem_timecode: identify the service by message length (the C switch
on strlen), parse the timecode and run the matching case body above.
The accept parameter is the refclock_process verdict.  A failed sscanf
reports a bad reply and returns, the conversions stored before the
failure remaining in the refclockproc record, as in C. -/
def modem_timecode (accept : Refclockproc → Bool) (up : Modemunit)
    (pp : Refclockproc) (str : String) : Modemunit × Refclockproc × List Effect :=
  let pp := { pp with nsec := 0 }
  if str.length = 1 then
    if str.data.head? = some '*' ∧ 0 < up.msgcnt then
      modem_finalize accept up pp str
    else (up, pp, [])
  else if str.length = 50 then
    match parseActs str.data with
    | none => (up, actsStore str.data pp, [Effect.badReply])
    | some f => actsCase accept up pp str f
  else if str.length = 20 then
    match parseUsno str.data with
    | none => (up, usnoStore str.data pp, [Effect.badReply])
    | some f => usnoCase accept up pp str f
  else if str.length = 78 then
    match parsePtb str.data with
    | none => (up, ptbStore str.data pp, [Effect.badReply])
    | some f => ptbCase accept up pp str f
  else if str.length = 22 then
    match parseSpec0 str.data with
    | none => (up, spec0Store str.data pp, [Effect.badReply])
    | some f => spec0Case accept up pp str f
  else if str.length = 24 then
    match parseSpec2 str.data with
    | none => (up, spec2Store str.data pp, [Effect.badReply])
    | some f => spec2Case accept up pp str f
  else (up, pp, [])

/-- modem_close: lower DTR and release the device if open, remove the
lock file if port locking is enabled, and either schedule a redial or
return to the idle wait. -/
def modem_close (phones : List String) (up : Modemunit)
    (pp : Refclockproc) : Modemunit × Refclockproc × List Effect :=
  let pp1 := if pp.io_fd_open then { pp with io_fd_open := false } else pp
  let e1 : List Effect :=
    if pp.io_fd_open then [Effect.dtr false, Effect.ioClose] else []
  let e2 : List Effect := if pp.flag2 then [Effect.lockUnlink] else []
  if up.msgcnt = 0 ∧ 0 < up.retry ∧ (phones.get? up.retry).isSome then
    ({ up with state := .S_IDLE, timer := REDIAL }, pp1, e1 ++ e2)
  else
    ({ up with state := .S_IDLE, timer := 0 }, pp1, e1 ++ e2)

/-- modem_timeout: the timeout half of the state machine.  The S_IDLE
case is the call start path (lock, open, register, then either the
direct poll character or the modem setup string); the other cases report
their timeout condition, commit a received sample for S_MSG, and run the
close sequence. -/
def modem_timeout (env : Env) (dstate : teModemState) (up : Modemunit)
    (pp : Refclockproc) : Modemunit × Refclockproc × List Effect :=
  match dstate with
  | .S_IDLE =>
    if pp.io_fd_open then (up, pp, [])
    else if pp.flag2 ∧ env.lockBusy then
      (up, pp, [Effect.clockEvent "modem: port busy"])
    else
      let lockEffs : List Effect := if pp.flag2 then [Effect.lockCreate] else []
      if env.openOk = false then
        (up, pp, lockEffs ++ [Effect.syslogErr "modem: open fails"])
      else
        let pp := { pp with io_fd_open := true }
        if env.addclockOk = false then
          (up, { pp with io_fd_open := false },
           lockEffs ++ [Effect.syslogErr "modem: addclock fails"])
        else
          let up := { up with msgcnt := 0, buf := [] }
          match env.phones.get? up.retry with
          | none =>
            ({ up with state := .S_MSG, timer := TIMECODE }, pp,
             lockEffs ++ [Effect.writeDev "T"])
          | some _ =>
            ({ up with state := .S_SETUP, timer := SETUP }, pp,
             lockEffs ++ [Effect.setupEvent env.modemSetup,
                          Effect.writeDev env.modemSetup, Effect.writeDev "\r"])
  | .S_SETUP =>
    let r := modem_close env.phones up pp
    (r.1, r.2.1, Effect.clockEvent "no modem" :: r.2.2)
  | .S_CONNECT =>
    let r := modem_close env.phones up pp
    (r.1, r.2.1, Effect.clockEvent "no answer" :: r.2.2)
  | .S_MSG =>
    if up.msgcnt = 0 then
      let r := modem_close env.phones up pp
      (r.1, r.2.1, Effect.clockEvent "no timecodes" :: r.2.2)
    else
      let pp := { pp with lastref := pp.lastrec }
      let r := modem_close env.phones up pp
      (r.1, r.2.1, Effect.recordStats pp.a_lastcode :: Effect.receiveSample :: r.2.2)

/-- First token of a line: modem_message copies the line and overwrites
every whitespace character with NUL, so the token compared by strcmp is
the prefix up to the first whitespace character. -/
def firstToken (msg : String) : String :=
  String.mk (msg.data.takeWhile (fun c => ! isspaceB c))

/-- modem_message: the incoming-line half of the state machine. -/
def modem_message (env : Env) (up : Modemunit) (pp : Refclockproc)
    (msg : String) : Modemunit × Refclockproc × List Effect :=
  let tok := firstToken msg
  match up.state with
  | .S_SETUP =>
    if tok = "OK" then
      let phone := (env.phones.get? up.retry).getD ""
      ({ up with retry := up.retry + 1, state := .S_CONNECT, timer := ANSWER },
       pp,
       [Effect.dialEvent up.retry phone, Effect.dtr true,
        Effect.writeDev phone, Effect.writeDev "\r"])
    else if tok = env.modemSetup then (up, pp, [])
    else
      let r := modem_close env.phones up pp
      (r.1, r.2.1, Effect.clockEvent msg :: r.2.2)
  | .S_CONNECT =>
    if tok = "CONNECT" then
      ({ up with state := .S_MSG, timer := TIMECODE }, pp,
       [Effect.clockEvent msg])
    else
      let r := modem_close env.phones up pp
      (r.1, r.2.1, Effect.clockEvent msg :: r.2.2)
  | .S_MSG =>
    let e0 : List Effect := if tok = "NO" then [Effect.clockEvent msg] else []
    if up.msgcnt < MAXCODE then
      let r := modem_timecode env.accept up pp msg
      (r.1, r.2.1, e0 ++ r.2.2)
    else
      let r := modem_timeout env .S_MSG up pp
      (r.1, r.2.1, e0 ++ r.2.2)
  | .S_IDLE =>
    let r := modem_close env.phones up pp
    (r.1, r.2.1, Effect.clockEvent msg :: r.2.2)

/-- Byte loop of modem_receive over one chunk: a LF on an empty buffer
records the chunk timestamp as the tentative on-time mark; a LF with
content buffered terminates the line and hands it to modem_message with
the cursor reset; other control characters are dropped; printable
characters are appended, the on-time markers also being echoed and
timestamped. -/
def modem_receive_go (env : Env) : List Char → Modemunit → Refclockproc →
    Modemunit × Refclockproc × List Effect
  | [], up, pp => (up, pp, [])
  | c :: cs, up, pp =>
    if c = '\n' then
      if up.buf = [] then
        modem_receive_go env cs { up with tstamp := pp.lastrec } pp
      else
        let r1 := modem_message env { up with buf := [] } pp (String.mk up.buf)
        let r2 := modem_receive_go env cs r1.1 r1.2.1
        (r2.1, r2.2.1, r1.2.2 ++ r2.2.2)
    else if iscntrlB c then
      modem_receive_go env cs up pp
    else
      let up := { up with buf := up.buf ++ [c] }
      if c = '*' ∨ c = '#' then
        let r2 := modem_receive_go env cs { up with tstamp := pp.lastrec } pp
        (r2.1, r2.2.1, Effect.writeDev (String.mk [c]) :: r2.2.2)
      else
        modem_receive_go env cs up pp

/-- modem_receive: refclock_gtraw stores the arrival timestamp of the
chunk into pp.lastrec, then the byte loop runs over the chunk. -/
def modem_receive (env : Env) (arrival : Nat) (up : Modemunit)
    (pp : Refclockproc) (chunk : List Char) : Modemunit × Refclockproc × List Effect :=
  modem_receive_go env chunk up { pp with lastrec := arrival }

/-- modem_poll: gate on the calling mode, count the poll, and when idle
reset the retry index and run the call start path.  The gate parameter
models sys_peer being NULL or this peer in backup mode. -/
def modem_poll (env : Env) (mode : Nat) (gate : Bool) (up : Modemunit)
    (pp : Refclockproc) : Modemunit × Refclockproc × List Effect :=
  if mode = MODE_MANUAL then (up, pp, [])
  else if mode = MODE_BACKUP ∧ gate = false then (up, pp, [])
  else
    let pp := { pp with polls := pp.polls + 1 }
    if up.state = .S_IDLE then
      modem_timeout env .S_IDLE { up with retry := 0 } pp
    else (up, pp, [])

/-- modem_timer: the one-second tick.  With the timer stopped, a set
force flag (CLK_FLAG1) is consumed and the call start path runs;
otherwise the timer counts down and fires the timeout handler for the
current state on reaching zero. -/
def modem_timer (env : Env) (up : Modemunit) (pp : Refclockproc) :
    Modemunit × Refclockproc × List Effect :=
  if up.timer = 0 then
    if pp.flag1 then modem_timeout env .S_IDLE up { pp with flag1 := false }
    else (up, pp, [])
  else
    let up := { up with timer := up.timer - 1 }
    if up.timer = 0 then modem_timeout env up.state up pp
    else (up, pp, [])

/-- Fold of modem_timecode over a sequence of complete lines, collecting
the effect trace. -/
def runTimecodes (accept : Refclockproc → Bool) : List String → Modemunit →
    Refclockproc → Modemunit × Refclockproc × List Effect
  | [], up, pp => (up, pp, [])
  | l :: ls, up, pp =>
    let r1 := modem_timecode accept up pp l
    let r2 := runTimecodes accept ls r1.1 r1.2.1
    (r2.1, r2.2.1, r1.2.2 ++ r2.2.2)

/-! Helper lemmas about the finalize tail of modem_timecode. -/

/-- The finalize tail never changes the leap indicator. -/
theorem finalize_leap (accept : Refclockproc → Bool) (up : Modemunit)
    (pp : Refclockproc) (str : String) :
    (modem_finalize accept up pp str).2.1.leap = pp.leap := by
  unfold modem_finalize
  dsimp only
  split
  · rfl
  · split <;> rfl

/-- With a nonzero message count the finalize tail hands exactly one
sample to refclock_process. -/
theorem finalize_fwd_count (accept : Refclockproc → Bool) (up : Modemunit)
    (pp : Refclockproc) (str : String) (h : up.msgcnt ≠ 0) :
    countForward (modem_finalize accept up pp str).2.2 = 1 := by
  unfold modem_finalize
  dsimp only
  rw [if_neg h]
  split <;>
    simp [countForward, List.countP_cons, List.countP_nil, Effect.isFwd]

/-- C4: for every session state at entry, modem_close returns to S_IDLE
and schedules the 30 second redial timer exactly when no message was
counted, at least one call attempt was made, and the phone list still
has an entry at the retry index; in every other case the timer is 0. -/
theorem c4_redial_gating (phones : List String) (up : Modemunit)
    (pp : Refclockproc) :
    (modem_close phones up pp).1.state = teModemState.S_IDLE ∧
    (modem_close phones up pp).1.timer =
      (if up.msgcnt = 0 ∧ 0 < up.retry ∧ (phones.get? up.retry).isSome
       then 30 else 0) := by
  unfold modem_close
  dsimp only
  by_cases hc : up.msgcnt = 0 ∧ 0 < up.retry ∧ (phones.get? up.retry).isSome
  · rw [if_pos hc, if_pos hc]
    exact ⟨rfl, rfl⟩
  · rw [if_neg hc, if_neg hc]
    exact ⟨rfl, rfl⟩

/-- On a length-20 line whose fourth conversion fails on a letter, the
day and hour stored by the earlier successful conversions remain in the
refclockproc record, matching the partial stores of the C sscanf. -/
theorem usno_partial_store_example :
    (modem_timecode (fun _ => true) {} {} "12345 678 9a1213 UTC").2.1 =
      ({ day := 678, hour := 9 } : Refclockproc) := by
  decide

/-- C7: a length-20 line whose fields fail numeric extraction yields
exactly a bad-reply report and leaves the whole unit record, state and
timer included, unchanged.  The refclockproc record is not part of the
conclusion: as in C, the conversions stored before the failing one
remain in it. -/
theorem c7_bad_usno_line (accept : Refclockproc → Bool) (up : Modemunit)
    (pp : Refclockproc) (str : String) (h20 : str.length = 20)
    (hf : parseUsno str.data = none) :
    (modem_timecode accept up pp str).1 = up ∧
    (modem_timecode accept up pp str).2.2 = [Effect.badReply] := by
  unfold modem_timecode
  rw [h20]
  simp [hf]

/-- C7 witness: a concrete length-20 line that fails mid-scan (leaving
partial stores behind) is reported as a bad reply with the unit record
untouched. -/
theorem c7_bad_usno_line_witness :
    (modem_timecode (fun _ => true) {} {} "12345 678 9a1213 UTC").1 =
      ({} : Modemunit) ∧
    (modem_timecode (fun _ => true) {} {} "12345 678 9a1213 UTC").2.2 =
      [Effect.badReply] :=
  c7_bad_usno_line (fun _ => true) {} {} "12345 678 9a1213 UTC" (by decide) (by decide)

/-- C9: a complete line consisting of the single character hash is
ignored by modem_timecode for every session state and message count (no
sample, no counter change, no bad-reply report), while a lone asterisk
line with a nonzero message count hands exactly one sample to the clock
filter. -/
theorem c9_lone_hash_ignored (accept : Refclockproc → Bool) (up : Modemunit)
    (pp : Refclockproc) :
    modem_timecode accept up pp "#" = (up, { pp with nsec := 0 }, []) ∧
    (0 < up.msgcnt → countForward (modem_timecode accept up pp "*").2.2 = 1) := by
  constructor
  · unfold modem_timecode
    have h1 : ("#" : String).length = 1 := rfl
    have h2 : ("#" : String).data.head? = some '#' := rfl
    simp [h1, h2]
  · intro h
    have h0 : up.msgcnt ≠ 0 := Nat.pos_iff_ne_zero.mp h
    have hred : modem_timecode accept up pp "*" =
        modem_finalize accept up { pp with nsec := 0 } "*" := by
      unfold modem_timecode
      have h1 : ("*" : String).length = 1 := rfl
      have h2 : ("*" : String).data.head? = some '*' := rfl
      simp [h1, h2, h]
    rw [hred]
    exact finalize_fwd_count _ _ _ _ h0

/-- C10: when the device is already open, the S_IDLE entry of
modem_timeout returns immediately: the session is untouched and no lock
file creation or device open is attempted. -/
theorem c10_idle_trigger_port_open (env : Env) (up : Modemunit)
    (pp : Refclockproc) (h : pp.io_fd_open = true) :
    modem_timeout env .S_IDLE up pp = (up, pp, []) := by
  unfold modem_timeout
  simp [h]

/-- C10 witness: the guard at a concrete open-port session. -/
theorem c10_idle_trigger_port_open_witness :
    modem_timeout { phones := ["ATDT1"] } .S_IDLE { retry := 2, msgcnt := 3 }
      { io_fd_open := true } =
      ({ retry := 2, msgcnt := 3 }, { io_fd_open := true }, []) :=
  c10_idle_trigger_port_open { phones := ["ATDT1"] } { retry := 2, msgcnt := 3 }
    { io_fd_open := true } rfl

/-- C1: evaluation at the failing input.  A valid length-20 USNO line
arriving with message count 0 is handed to refclock_process by itself
(the LENUSNO case falls through to the finalize tail), and the line
followed by the lone on-time asterisk yields two refclock_process calls
for the pair, not one. -/
theorem c1_usno_line_forwarded_immediately :
    countForward (modem_timecode (fun _ => true)
      { state := .S_MSG, msgcnt := 0 } {} "31180 123 204500 UTC").2.2 = 1 ∧
    countForward (runTimecodes (fun _ => true) ["31180 123 204500 UTC", "*"]
      { state := .S_MSG, msgcnt := 0 } {}).2.2 = 2 := by
  constructor <;> decide

/-- C2 counterexample: a NO CARRIER line arriving in S_MSG with message
count 0 leaves the state at S_MSG with the device still open, so the
call is not aborted by the close sequence at that point. -/
theorem c2_no_carrier_counterexample :
    (modem_message { phones := ["ATDT1"] }
       { state := .S_MSG, timer := 42, retry := 1 } { io_fd_open := true }
       "NO CARRIER").1.state ≠ teModemState.S_IDLE ∧
    (modem_message { phones := ["ATDT1"] }
       { state := .S_MSG, timer := 42, retry := 1 } { io_fd_open := true }
       "NO CARRIER").2.1.io_fd_open = true := by
  constructor <;> decide

/-- C3 counterexample: a forced call (CLK_FLAG1 with the timer stopped)
performs an Idle to Setup transition that keeps the prior retry index 1
instead of resetting it to 0. -/
theorem c3_forced_call_counterexample :
    (modem_timer { phones := ["ATDT1", "ATDT2"] }
       { state := .S_IDLE, timer := 0, retry := 1, msgcnt := 5 }
       { flag1 := true }).1.state = teModemState.S_SETUP ∧
    (modem_timer { phones := ["ATDT1", "ATDT2"] }
       { state := .S_IDLE, timer := 0, retry := 1, msgcnt := 5 }
       { flag1 := true }).1.retry = 1 := by
  constructor <;> decide

/-- Dispatch: a length-50 line with a successful format A parse runs the
LENACTS case body. -/
theorem timecode_len50 (accept : Refclockproc → Bool) (up : Modemunit)
    (pp : Refclockproc) (str : String) (f : ActsFields)
    (h50 : str.length = 50) (hp : parseActs str.data = some f) :
    modem_timecode accept up pp str =
      actsCase accept up { pp with nsec := 0 } str f := by
  unfold modem_timecode
  rw [h50]
  simp [hp]

/-- Dispatch: a length-78 line with a successful PTB/NPL parse runs the
LENPTB case body. -/
theorem timecode_len78 (accept : Refclockproc → Bool) (up : Modemunit)
    (pp : Refclockproc) (str : String) (f : PtbFields)
    (h78 : str.length = 78) (hp : parsePtb str.data = some f) :
    modem_timecode accept up pp str =
      ptbCase accept up { pp with nsec := 0 } str f := by
  unfold modem_timecode
  rw [h78]
  simp [hp]

/-- Dispatch: a line whose length matches none of the six recognized
formats is dropped as noise, leaving the session untouched. -/
theorem timecode_noise (accept : Refclockproc → Bool) (up : Modemunit)
    (pp : Refclockproc) (str : String)
    (h1 : str.length ≠ 1) (h2 : str.length ≠ 50) (h3 : str.length ≠ 20)
    (h4 : str.length ≠ 78) (h5 : str.length ≠ 22) (h6 : str.length ≠ 24) :
    modem_timecode accept up pp str = (up, { pp with nsec := 0 }, []) := by
  unfold modem_timecode
  simp [h1, h2, h3, h4, h5, h6]

/-- The leap indicator produced by the LENACTS case body is determined
by the decoded leap flag alone. -/
theorem actsCase_leap (accept : Refclockproc → Bool) (up : Modemunit)
    (pp : Refclockproc) (str : String) (f : ActsFields) :
    (actsCase accept up pp str f).2.1.leap =
      (if f.leap = 1 then Leap.addsecond
       else if f.leap = 2 then Leap.delsecond
       else Leap.nowarning) := by
  unfold actsCase
  dsimp only
  split
  · rfl
  · rw [finalize_leap]

/-- The leap indicator produced by the LENPTB case body is determined by
the leap direction character gated on the leap month matching the
current month. -/
theorem ptbCase_leap (accept : Refclockproc → Bool) (up : Modemunit)
    (pp : Refclockproc) (str : String) (f : PtbFields) :
    (ptbCase accept up pp str f).2.1.leap =
      (if f.leapmonth = f.month then
         (if f.leapdir = '+' then Leap.addsecond
          else if f.leapdir = '-' then Leap.delsecond
          else Leap.nowarning)
       else Leap.nowarning) := by
  unfold ptbCase
  dsimp only
  rw [finalize_leap]

/-- C6: for every valid length-50 format A line the leap flag 1 yields
add-second, 2 yields delete-second and anything else none; for every
valid length-78 PTB/NPL line the leap direction character applies only
when the leap month equals the current month, plus giving add-second and
minus delete-second, and otherwise the indicator is none. -/
theorem c6_leap_logic (accept : Refclockproc → Bool) (up : Modemunit)
    (pp : Refclockproc) :
    (∀ (str : String) (f : ActsFields), str.length = 50 →
      parseActs str.data = some f →
      (modem_timecode accept up pp str).2.1.leap =
        (if f.leap = 1 then Leap.addsecond
         else if f.leap = 2 then Leap.delsecond
         else Leap.nowarning)) ∧
    (∀ (str : String) (f : PtbFields), str.length = 78 →
      parsePtb str.data = some f →
      (modem_timecode accept up pp str).2.1.leap =
        (if f.leapmonth = f.month then
           (if f.leapdir = '+' then Leap.addsecond
            else if f.leapdir = '-' then Leap.delsecond
            else Leap.nowarning)
         else Leap.nowarning)) := by
  constructor
  · intro str f h50 hp
    rw [timecode_len50 accept up pp str f h50 hp, actsCase_leap]
  · intro str f h78 hp
    rw [timecode_len78 accept up pp str f h78 hp, ptbCase_leap]

/-- C6 witness: a concrete format A line with leap flag 1 and a concrete
PTB/NPL line with direction plus and matching leap month both produce
the add-second indicator. -/
theorem c6_leap_logic_witness :
    (modem_timecode (fun _ => true) {} {}
       "47999 90-04-18 21:39:15 50 1 +.1 045.0 UTC(NIST) *").2.1.leap =
      Leap.addsecond ∧
    (modem_timecode (fun _ => true) {} {}
       "2000-01-23 20:58:51 ABCDEFGHIJKLMNOPQ2000062320585154412+06500RSTUVWXYZabcdefX").2.1.leap =
      Leap.addsecond := by
  constructor
  · have h := (c6_leap_logic (fun _ => true) {} {}).1
      "47999 90-04-18 21:39:15 50 1 +.1 045.0 UTC(NIST) *"
      { mjd := 47999, year := 90, month := 4, day := 18, hour := 21,
        minute := 39, second := 15, dst := 50, leap := 1,
        utc := "UTC(NIST)".data, flag := '*' }
      (by decide) (by decide)
    simpa using h
  · have h := (c6_leap_logic (fun _ => true) {} {}).2
      "2000-01-23 20:58:51 ABCDEFGHIJKLMNOPQ2000062320585154412+06500RSTUVWXYZabcdefX"
      { second := 51, year := 2000, month := 6, day := 23, hour := 20,
        minute := 58, mjd := 51544, leapdir := '+', leapmonth := 6,
        flag := 'X' }
      (by decide) (by decide)
    simpa using h

/-- After modem_close the state is S_IDLE, the device is released, and
with a nonzero message count the timer is stopped. -/
theorem modem_close_parts (phones : List String) (up : Modemunit)
    (pp : Refclockproc) :
    (modem_close phones up pp).1.state = teModemState.S_IDLE ∧
    (modem_close phones up pp).2.1.io_fd_open = false ∧
    (up.msgcnt ≠ 0 → (modem_close phones up pp).1.timer = 0) := by
  unfold modem_close
  dsimp only
  split
  · rename_i hc
    refine ⟨rfl, ?_, fun h => absurd hc.1 h⟩
    split <;> simp_all
  · refine ⟨rfl, ?_, fun _ => rfl⟩
    split <;> simp_all

/-- A S_MSG timeout with a nonzero message count runs the close
sequence: idle state, stopped timer, device released. -/
theorem timeout_msg_closes (env : Env) (up : Modemunit) (pp : Refclockproc)
    (h : up.msgcnt ≠ 0) :
    (modem_timeout env .S_MSG up pp).1.state = teModemState.S_IDLE ∧
    (modem_timeout env .S_MSG up pp).1.timer = 0 ∧
    (modem_timeout env .S_MSG up pp).2.1.io_fd_open = false := by
  unfold modem_timeout
  dsimp only
  rw [if_neg h]
  dsimp only
  exact ⟨(modem_close_parts _ _ _).1, (modem_close_parts _ _ _).2.2 h,
         (modem_close_parts _ _ _).2.1⟩

/-- C2 amended: a NO CARRIER line in S_MSG is reported; the call is
aborted through the close sequence only when the message count has
reached 20, and otherwise the line goes to the timecode parser, which
drops the unrecognized length-10 text and leaves the session (state and
timer included) and the open device untouched. -/
theorem c2_no_carrier_amended (env : Env) (up : Modemunit) (pp : Refclockproc)
    (hs : up.state = teModemState.S_MSG) :
    Effect.clockEvent "NO CARRIER" ∈ (modem_message env up pp "NO CARRIER").2.2 ∧
    (up.msgcnt < 20 →
      (modem_message env up pp "NO CARRIER").1 = up ∧
      (modem_message env up pp "NO CARRIER").2.1.io_fd_open = pp.io_fd_open) ∧
    (20 ≤ up.msgcnt →
      (modem_message env up pp "NO CARRIER").1.state = teModemState.S_IDLE ∧
      (modem_message env up pp "NO CARRIER").1.timer = 0 ∧
      (modem_message env up pp "NO CARRIER").2.1.io_fd_open = false) := by
  have htok : firstToken "NO CARRIER" = "NO" := by decide
  have hred : modem_message env up pp "NO CARRIER" =
      (if up.msgcnt < MAXCODE then
        (up, { pp with nsec := 0 }, [Effect.clockEvent "NO CARRIER"])
       else
        ((modem_timeout env .S_MSG up pp).1,
         (modem_timeout env .S_MSG up pp).2.1,
         Effect.clockEvent "NO CARRIER" :: (modem_timeout env .S_MSG up pp).2.2)) := by
    unfold modem_message
    rw [hs, htok]
    dsimp only
    rw [timecode_noise env.accept up pp "NO CARRIER" (by decide) (by decide)
        (by decide) (by decide) (by decide) (by decide)]
    split <;> simp
  refine ⟨?_, ?_, ?_⟩
  · rw [hred]
    split
    · exact List.Mem.head _
    · exact List.Mem.head _
  · intro h
    rw [hred, if_pos (show up.msgcnt < MAXCODE from h)]
    exact ⟨rfl, rfl⟩
  · intro h
    have hne : up.msgcnt ≠ 0 := by omega
    have ht := timeout_msg_closes env up pp hne
    rw [hred, if_neg (by unfold MAXCODE; omega)]
    exact ⟨ht.1, ht.2.1, ht.2.2⟩

/-- C2 amended witness: the concrete session with message count 0. -/
theorem c2_no_carrier_amended_witness :
    Effect.clockEvent "NO CARRIER" ∈
      (modem_message { phones := [] } { state := .S_MSG } {} "NO CARRIER").2.2 ∧
    (modem_message { phones := [] } { state := .S_MSG } {} "NO CARRIER").1 =
      { state := .S_MSG } := by
  have h := c2_no_carrier_amended { phones := [] } { state := .S_MSG } {} rfl
  exact ⟨h.1, (h.2.1 (by decide)).1⟩

/-- C8: in the line framer, a terminator byte on an empty buffer records
the chunk arrival time as the tentative on-time timestamp and emits no
line, while a terminator with content buffered hands exactly the
buffered content (terminator excluded) to modem_message with the write
cursor reset and the previously recorded on-time timestamp untouched. -/
theorem c8_framer_terminator (env : Env) (arrival : Nat) (up : Modemunit)
    (pp : Refclockproc) :
    (up.buf = [] →
      modem_receive env arrival up pp ['\n'] =
        ({ up with tstamp := arrival }, { pp with lastrec := arrival }, [])) ∧
    (up.buf ≠ [] →
      modem_receive env arrival up pp ['\n'] =
        modem_message env { up with buf := [] } { pp with lastrec := arrival }
          (String.mk up.buf)) := by
  constructor
  · intro h
    simp [modem_receive, modem_receive_go, h]
  · intro h
    simp [modem_receive, modem_receive_go, h]

/-- C8 witness: a lone terminator chunk at arrival time 7, once on an
empty buffer and once on a buffer holding the letters O K. -/
theorem c8_framer_terminator_witness :
    modem_receive { phones := [] } 7 {} {} ['\n'] =
      ({ tstamp := 7 }, { lastrec := 7 }, []) ∧
    modem_receive { phones := [] } 7 { buf := ['O', 'K'] } {} ['\n'] =
      modem_message { phones := [] } {} { lastrec := 7 } (String.mk ['O', 'K']) := by
  constructor
  · exact (c8_framer_terminator { phones := [] } 7 {} {}).1 rfl
  · exact (c8_framer_terminator { phones := [] } 7 { buf := ['O', 'K'] } {}).2
      (by decide)

/-- The S_IDLE entry of modem_timeout either returns early with the unit
untouched, or reaches the call start point, where the message count has
been reset and the retry index is preserved. -/
theorem timeout_idle_sets (env : Env) (up : Modemunit) (pp : Refclockproc) :
    ((modem_timeout env .S_IDLE up pp).1.msgcnt = 0 ∧
     (modem_timeout env .S_IDLE up pp).1.retry = up.retry) ∨
    (modem_timeout env .S_IDLE up pp).1 = up := by
  unfold modem_timeout
  dsimp only
  split
  · exact Or.inr rfl
  · split
    · exact Or.inr rfl
    · split
      · exact Or.inr rfl
      · split
        · exact Or.inr rfl
        · split <;> exact Or.inl ⟨rfl, rfl⟩

/-- modem_poll either leaves the unit untouched or, from the idle state,
invokes the call start path with the retry index reset to 0. -/
theorem poll_cases (env : Env) (mode : Nat) (gate : Bool) (up : Modemunit)
    (pp : Refclockproc) :
    (modem_poll env mode gate up pp).1 = up ∨
    (up.state = teModemState.S_IDLE ∧
     modem_poll env mode gate up pp =
       modem_timeout env .S_IDLE { up with retry := 0 }
         { pp with polls := pp.polls + 1 }) := by
  unfold modem_poll
  dsimp only
  split
  · exact Or.inl rfl
  · split
    · exact Or.inl rfl
    · split
      · rename_i hst
        exact Or.inr ⟨hst, rfl⟩
      · exact Or.inl rfl

/-- C3 amended: after a poll-triggered Idle to Setup or Idle to
ReceivingTimecode transition both the message count and the retry index
are 0; after a forced-call (CLK_FLAG1) transition the message count is 0
but the retry index keeps its prior value. -/
theorem c3_session_reset_amended (env : Env) (mode : Nat) (gate : Bool)
    (up : Modemunit) (pp : Refclockproc) :
    (up.state = teModemState.S_IDLE →
      ((modem_poll env mode gate up pp).1.state = teModemState.S_SETUP ∨
       (modem_poll env mode gate up pp).1.state = teModemState.S_MSG) →
      (modem_poll env mode gate up pp).1.msgcnt = 0 ∧
      (modem_poll env mode gate up pp).1.retry = 0) ∧
    (up.state = teModemState.S_IDLE → up.timer = 0 →
      ((modem_timer env up pp).1.state = teModemState.S_SETUP ∨
       (modem_timer env up pp).1.state = teModemState.S_MSG) →
      (modem_timer env up pp).1.msgcnt = 0 ∧
      (modem_timer env up pp).1.retry = up.retry) := by
  constructor
  · intro hI h
    rcases poll_cases env mode gate up pp with hsame | ⟨_, heq⟩
    · rw [hsame, hI] at h
      rcases h with h | h <;> exact absurd h (by decide)
    · rw [heq] at h ⊢
      rcases timeout_idle_sets env { up with retry := 0 }
          { pp with polls := pp.polls + 1 } with hgood | hsame2
      · exact ⟨hgood.1, hgood.2⟩
      · rw [hsame2] at h
        dsimp only at h
        rw [hI] at h
        rcases h with h | h <;> exact absurd h (by decide)
  · intro hI ht h
    have hred : modem_timer env up pp =
        (if pp.flag1 then
           modem_timeout env .S_IDLE up { pp with flag1 := false }
         else (up, pp, [])) := by
      unfold modem_timer
      rw [if_pos ht]
    rw [hred] at h ⊢
    by_cases hf : pp.flag1 = true
    · rw [if_pos hf] at h ⊢
      rcases timeout_idle_sets env up { pp with flag1 := false } with hgood | hsame
      · exact hgood
      · rw [hsame, hI] at h
        rcases h with h | h <;> exact absurd h (by decide)
    · rw [if_neg hf] at h
      dsimp only at h
      rw [hI] at h
      rcases h with h | h <;> exact absurd h (by decide)

/-- C3 amended witness: a poll-triggered transition from idle with stale
retry index 3 and message count 7 resets both counters. -/
theorem c3_session_reset_amended_witness :
    (modem_poll { phones := ["ATDT1"] } 1 true
       { state := .S_IDLE, retry := 3, msgcnt := 7 } {}).1.msgcnt = 0 ∧
    (modem_poll { phones := ["ATDT1"] } 1 true
       { state := .S_IDLE, retry := 3, msgcnt := 7 } {}).1.retry = 0 :=
  (c3_session_reset_amended { phones := ["ATDT1"] } 1 true
     { state := .S_IDLE, retry := 3, msgcnt := 7 } {}).1 rfl (Or.inl (by decide))

/-- A format A line whose flag is not the terminal hash, accepted while
fewer than 10 messages will have been counted, only increments the
message counter and produces no effect. -/
theorem actsCase_quiet (accept : Refclockproc → Bool) (up : Modemunit)
    (pp : Refclockproc) (str : String) (f : ActsFields) (hfl : f.flag ≠ '#')
    (hlt : up.msgcnt + 1 < 10) :
    (actsCase accept up pp str f).1.msgcnt = up.msgcnt + 1 ∧
    (actsCase accept up pp str f).2.2 = [] := by
  unfold actsCase
  dsimp only
  rw [if_pos ⟨hfl, hlt⟩]
  exact ⟨rfl, rfl⟩

/-- A format A line that fails the early-return test (terminal flag
present or 10 messages counted) reaches the finalize tail and hands
exactly one sample to the clock filter. -/
theorem actsCase_fwd (accept : Refclockproc → Bool) (up : Modemunit)
    (pp : Refclockproc) (str : String) (f : ActsFields)
    (h : ¬ (f.flag ≠ '#' ∧ up.msgcnt + 1 < 10)) :
    countForward (actsCase accept up pp str f).2.2 = 1 := by
  unfold actsCase
  dsimp only
  rw [if_neg h]
  exact finalize_fwd_count _ _ _ _ (Nat.succ_ne_zero _)

/-- Step form of the quiet case through the length dispatch. -/
theorem acts_step_quiet (accept : Refclockproc → Bool) (up : Modemunit)
    (pp : Refclockproc) (l : String) (f : ActsFields) (h50 : l.length = 50)
    (hp : parseActs l.data = some f) (hfl : f.flag ≠ '#')
    (hlt : up.msgcnt + 1 < 10) :
    (modem_timecode accept up pp l).1.msgcnt = up.msgcnt + 1 ∧
    (modem_timecode accept up pp l).2.2 = [] := by
  rw [timecode_len50 accept up pp l f h50 hp]
  exact actsCase_quiet _ _ _ _ _ hfl hlt

/-- Step form of the forwarding case through the length dispatch. -/
theorem acts_step_fwd (accept : Refclockproc → Bool) (up : Modemunit)
    (pp : Refclockproc) (l : String) (f : ActsFields) (h50 : l.length = 50)
    (hp : parseActs l.data = some f) (hge : ¬ (up.msgcnt + 1 < 10)) :
    countForward (modem_timecode accept up pp l).2.2 = 1 := by
  rw [timecode_len50 accept up pp l f h50 hp]
  exact actsCase_fwd _ _ _ _ _ (fun hc => hge hc.2)

/-- Splitting a run of timecode lines at an append point. -/
theorem runTimecodes_append (accept : Refclockproc → Bool) (xs ys : List String) :
    ∀ (up : Modemunit) (pp : Refclockproc),
    runTimecodes accept (xs ++ ys) up pp =
      ((runTimecodes accept ys (runTimecodes accept xs up pp).1
          (runTimecodes accept xs up pp).2.1).1,
       (runTimecodes accept ys (runTimecodes accept xs up pp).1
          (runTimecodes accept xs up pp).2.1).2.1,
       (runTimecodes accept xs up pp).2.2 ++
        (runTimecodes accept ys (runTimecodes accept xs up pp).1
          (runTimecodes accept xs up pp).2.1).2.2) := by
  induction xs with
  | nil =>
    intro up pp
    simp [runTimecodes]
  | cons x xs ih =>
    intro up pp
    simp only [List.cons_append, runTimecodes, List.append_eq]
    rw [ih]
    simp [List.append_assoc]

/-- A run of accepted format A lines with non-terminal flags that keeps
the message count at or below 9 produces no effect at all and adds the
number of lines to the message count. -/
theorem acts_quiet_run (accept : Refclockproc → Bool) (lines : List String) :
    ∀ (up : Modemunit) (pp : Refclockproc),
    (∀ l ∈ lines, l.length = 50 ∧ ∃ f, parseActs l.data = some f ∧ f.flag ≠ '#') →
    up.msgcnt + lines.length ≤ 9 →
    (runTimecodes accept lines up pp).1.msgcnt = up.msgcnt + lines.length ∧
    (runTimecodes accept lines up pp).2.2 = [] := by
  induction lines with
  | nil =>
    intro up pp _ _
    exact ⟨by simp [runTimecodes], by simp [runTimecodes]⟩
  | cons l ls ih =>
    intro up pp hv hle
    obtain ⟨h50, f, hp, hfl⟩ := hv l (List.mem_cons_self l ls)
    have hlen : up.msgcnt + (ls.length + 1) ≤ 9 := by
      simpa [List.length_cons] using hle
    have hlt : up.msgcnt + 1 < 10 := by omega
    have hstep := acts_step_quiet accept up pp l f h50 hp hfl hlt
    have hrec := ih (modem_timecode accept up pp l).1
      (modem_timecode accept up pp l).2.1
      (fun x hx => hv x (List.mem_cons_of_mem l hx))
      (by rw [hstep.1]; omega)
    constructor
    · simp only [runTimecodes]
      rw [hrec.1, hstep.1]
      simp [List.length_cons]
      omega
    · simp only [runTimecodes]
      rw [hstep.2, hrec.2]
      rfl

/-- C5: from a cycle start (message count 0), 9 accepted format A lines
with flags other than the terminal hash hand nothing to the clock filter
and leave the message count at 9, and a 10th accepted line, whatever its
flag, hands exactly one sample to the clock filter. -/
theorem c5_acts_noise_tolerance (accept : Refclockproc → Bool) (up : Modemunit)
    (pp : Refclockproc) (lines : List String) (l10 : String) (f10 : ActsFields)
    (hm : up.msgcnt = 0) (h9 : lines.length = 9)
    (hv : ∀ l ∈ lines, l.length = 50 ∧ ∃ f, parseActs l.data = some f ∧ f.flag ≠ '#')
    (h50 : l10.length = 50) (hp : parseActs l10.data = some f10) :
    countForward (runTimecodes accept lines up pp).2.2 = 0 ∧
    (runTimecodes accept lines up pp).1.msgcnt = 9 ∧
    countForward (runTimecodes accept (lines ++ [l10]) up pp).2.2 = 1 := by
  have hq := acts_quiet_run accept lines up pp hv (by omega)
  have h9m : (runTimecodes accept lines up pp).1.msgcnt = 9 := by
    rw [hq.1, hm, h9]
  refine ⟨?_, h9m, ?_⟩
  · rw [hq.2]
    rfl
  · rw [runTimecodes_append accept lines [l10] up pp]
    rw [hq.2]
    simp only [List.nil_append, runTimecodes]
    rw [List.append_nil]
    exact acts_step_fwd accept _ _ l10 f10 h50 hp (by rw [h9m]; omega)

/-- C5 witness: nine copies of a concrete format A line with flag
asterisk forward nothing and count to 9, and a tenth copy forwards
exactly one sample. -/
theorem c5_acts_noise_tolerance_witness :
    countForward (runTimecodes (fun _ => true)
      (List.replicate 9 "47999 90-04-18 21:39:15 50 0 +.1 045.0 UTC(NIST) *")
      {} {}).2.2 = 0 ∧
    (runTimecodes (fun _ => true)
      (List.replicate 9 "47999 90-04-18 21:39:15 50 0 +.1 045.0 UTC(NIST) *")
      {} {}).1.msgcnt = 9 ∧
    countForward (runTimecodes (fun _ => true)
      (List.replicate 9 "47999 90-04-18 21:39:15 50 0 +.1 045.0 UTC(NIST) *" ++
       ["47999 90-04-18 21:39:15 50 0 +.1 045.0 UTC(NIST) *"]) {} {}).2.2 = 1 := by
  refine c5_acts_noise_tolerance (fun _ => true) {} {} _ _
    { mjd := 47999, year := 90, month := 4, day := 18, hour := 21, minute := 39,
      second := 15, dst := 50, leap := 0, utc := "UTC(NIST)".data, flag := '*' }
    rfl (by decide) ?_ (by decide) (by decide)
  intro l hl
  rw [List.eq_of_mem_replicate hl]
  exact ⟨by decide,
    ⟨{ mjd := 47999, year := 90, month := 4, day := 18, hour := 21, minute := 39,
       second := 15, dst := 50, leap := 0, utc := "UTC(NIST)".data, flag := '*' },
     by decide, by decide⟩⟩

/-- C9 witness: with one message already counted, the lone hash line is
dropped unchanged while the lone asterisk line forwards one sample. -/
theorem c9_lone_hash_ignored_witness :
    modem_timecode (fun _ => true) { msgcnt := 1 } {} "#" =
      ({ msgcnt := 1 }, {}, []) ∧
    countForward (modem_timecode (fun _ => true) { msgcnt := 1 } {} "*").2.2 = 1 := by
  have h := c9_lone_hash_ignored (fun _ => true) { msgcnt := 1 } {}
  exact ⟨h.1, h.2 (by decide)⟩
